import Mathlib

/-!
Shallow embedding of `src/actions/index.ts` of the recipe-generator
repository: the four astro:db tables become lists of row records, the
action handlers become pure functions from a request (current user,
validated input), a timestamp `now`, a UUID supply `gen`, and the store
state to a result paired with the next store state.

Conventions of the embedding:
- `Option` models a missing/undefined field or a NULL column.
- Timestamps are `Nat` (the claims never do date arithmetic).
- `randomUUID()` is a parameter `gen : Nat → String`; each potential
  generation site in one handler call reads a distinct index.
- JavaScript truthiness of an optional string (`if (input.id)`,
  `if (input.sessionId)`) is `strTruthy`: false for `none` and for the
  empty string.  An optional array (`if (input.ingredients)`) is truthy
  exactly when present, empty or not.  An optional boolean
  (`if (input.favoritesOnly)`) is truthy exactly when `some true`.
- A thrown `ActionError` is the `Except.error` side; the handler also
  returns the store state so that "state unchanged on error" is a
  provable statement, mirroring that every `throw` in the source occurs
  before any write of the same handler.
- `db.select().where(...)` is `List.filter`; `orderBy(createdAt)` is
  `orderByKey` (a stable insertion sort) on `createdAt`;
  `limit`/`offset` are `take`/`drop`;
  `db.update().set(...)` maps the rows matching the `where` filter
  through the field assignments; `db.insert` appends; `db.delete`
  filters out matching rows.
-/

/-- Error codes of `ActionError` as thrown by the handlers. -/
inductive ActionErr where
  | unauthorized
  | notFound
deriving Repr, DecidableEq

/-- A row of the `RecipeIdeaSessions` table. -/
structure SessionRow where
  id : String
  userId : String
  title : Option String
  prompt : Option String
  cuisinePreference : Option String
  dietaryPreference : Option String
  servingCount : Option Int
  createdAt : Nat
  updatedAt : Nat
deriving Repr, DecidableEq

/-- A row of the `GeneratedRecipes` table. -/
structure RecipeRow where
  id : String
  sessionId : Option String
  userId : String
  title : String
  description : Option String
  cuisine : Option String
  mealType : Option String
  tags : Option String
  servings : Option Int
  prepTimeMinutes : Option Int
  cookTimeMinutes : Option Int
  notes : Option String
  isFavorite : Bool
  createdAt : Nat
  updatedAt : Nat
deriving Repr, DecidableEq

/-- A row of the `GeneratedRecipeIngredients` table. -/
structure IngredientRow where
  id : String
  recipeId : String
  orderIndex : Option Int
  name : String
  quantity : Option String
  notes : Option String
  createdAt : Nat
deriving Repr, DecidableEq

/-- A row of the `GeneratedRecipeSteps` table. -/
structure StepRow where
  id : String
  recipeId : String
  orderIndex : Int
  instruction : String
  tip : Option String
  createdAt : Nat
deriving Repr, DecidableEq

/-- The whole data store: the four tables, each a list of rows. -/
structure Store where
  recipeIdeaSessions : List SessionRow
  generatedRecipes : List RecipeRow
  generatedRecipeIngredients : List IngredientRow
  generatedRecipeSteps : List StepRow
deriving Repr, DecidableEq

/-- JavaScript truthiness of an optional string: `undefined` and `""`
are falsy, every other string is truthy. -/
def strTruthy : Option String → Bool
  | none => false
  | some s => s != ""

/-- Insert `x` into a list assumed sorted by `key`, after every element
whose key is ≤ `key x`. -/
def insertByKey {α : Type} (key : α → Nat) (x : α) : List α → List α
  | [] => [x]
  | y :: ys =>
    if key y ≤ key x then y :: insertByKey key x ys else x :: y :: ys

/-- Insertion sort by a `Nat` key: the model of the store's
`orderBy(createdAt)` (SQL leaves the order of equal keys unspecified;
this deterministic sort is the model's choice). -/
def orderByKey {α : Type} (key : α → Nat) : List α → List α
  | [] => []
  | x :: xs => insertByKey key x (orderByKey key xs)

/-- Validated input of `updateRecipeIdeaSession` (schema
`recipeSessionSchema`): required `id`, all other fields optional. -/
structure SessionUpdateInput where
  id : String
  title : Option String
  prompt : Option String
  cuisinePreference : Option String
  dietaryPreference : Option String
  servingCount : Option Int
deriving Repr, DecidableEq

/-- The field assignments of the `updateRecipeIdeaSession` handler:
`updatedAt` is always set to `now`; each other field is assigned only
when present in the input (`if (input.x !== undefined)`). -/
def applySessionUpdate (input : SessionUpdateInput) (now : Nat)
    (s : SessionRow) : SessionRow :=
  { s with
    updatedAt := now
    title := match input.title with | some t => some t | none => s.title
    prompt := match input.prompt with | some p => some p | none => s.prompt
    cuisinePreference :=
      match input.cuisinePreference with
      | some c => some c
      | none => s.cuisinePreference
    dietaryPreference :=
      match input.dietaryPreference with
      | some d => some d
      | none => s.dietaryPreference
    servingCount :=
      match input.servingCount with
      | some n => some n
      | none => s.servingCount }

/-- Handler of `updateRecipeIdeaSession`: look up the session filtered
by id AND owning user, throw NOT_FOUND on zero rows, otherwise apply
the partial update filtered again by id AND owning user. -/
def updateRecipeIdeaSession (user? : Option String)
    (input : SessionUpdateInput) (now : Nat) (st : Store) :
    Except ActionErr String × Store :=
  match user? with
  | none => (Except.error ActionErr.unauthorized, st)
  | some uid =>
    let existing := st.recipeIdeaSessions.filter
      (fun s => s.id == input.id && s.userId == uid)
    if existing.length == 0 then
      (Except.error ActionErr.notFound, st)
    else
      (Except.ok input.id,
        { st with
          recipeIdeaSessions := st.recipeIdeaSessions.map
            (fun s =>
              if s.id == input.id && s.userId == uid then
                applySessionUpdate input now s
              else s) })

/-- Validated input of `createRecipeIdeaSession` (the session schema
without `id`). -/
structure SessionCreateInput where
  title : Option String
  prompt : Option String
  cuisinePreference : Option String
  dietaryPreference : Option String
  servingCount : Option Int
deriving Repr, DecidableEq

/-- Handler of `createRecipeIdeaSession`: insert a fresh row under a
generated id, both timestamps set to now. -/
def createRecipeIdeaSession (user? : Option String)
    (input : SessionCreateInput) (now : Nat) (gen : Nat → String)
    (st : Store) : Except ActionErr String × Store :=
  match user? with
  | none => (Except.error ActionErr.unauthorized, st)
  | some uid =>
    let id := gen 0
    (Except.ok id,
      { st with
        recipeIdeaSessions := st.recipeIdeaSessions ++
          [{ id := id
             userId := uid
             title := input.title
             prompt := input.prompt
             cuisinePreference := input.cuisinePreference
             dietaryPreference := input.dietaryPreference
             servingCount := input.servingCount
             createdAt := now
             updatedAt := now }] })

/-- Validated pagination input of `listRecipeIdeaSessions` (defaults
already applied by the schema: page ≥ 1, 1 ≤ pageSize ≤ 100). -/
structure SessionListInput where
  page : Nat
  pageSize : Nat
deriving Repr, DecidableEq

/-- Output envelope of the list actions over sessions. -/
structure SessionListOutput where
  items : List SessionRow
  total : Nat
  page : Nat
  pageSize : Nat
deriving Repr, DecidableEq

/-- Handler of `listRecipeIdeaSessions`: rows owned by the user,
ordered by `createdAt`, with limit/offset pagination; `total` is the
length of the returned page. -/
def listRecipeIdeaSessions (user? : Option String)
    (input : SessionListInput) (st : Store) :
    Except ActionErr SessionListOutput :=
  match user? with
  | none => Except.error ActionErr.unauthorized
  | some uid =>
    let offset := (input.page - 1) * input.pageSize
    let items :=
      ((orderByKey (fun s => s.createdAt)
          (st.recipeIdeaSessions.filter (fun s => s.userId == uid))).drop
        offset).take input.pageSize
    Except.ok
      { items := items
        total := items.length
        page := input.page
        pageSize := input.pageSize }

/-- Validated input of one ingredient inside `upsertGeneratedRecipe`
(schema `ingredientSchema`). -/
structure IngredientInput where
  id : Option String
  orderIndex : Option Int
  name : String
  quantity : Option String
  notes : Option String
deriving Repr, DecidableEq

/-- Validated input of one step inside `upsertGeneratedRecipe` (schema
`stepSchema`). -/
structure StepInput where
  id : Option String
  orderIndex : Int
  instruction : String
  tip : Option String
deriving Repr, DecidableEq

/-- Validated input of `upsertGeneratedRecipe`. -/
structure UpsertRecipeInput where
  id : Option String
  sessionId : Option String
  title : String
  description : Option String
  cuisine : Option String
  mealType : Option String
  tags : Option String
  servings : Option Int
  prepTimeMinutes : Option Int
  cookTimeMinutes : Option Int
  notes : Option String
  isFavorite : Option Bool
  ingredients : Option (List IngredientInput)
  steps : Option (List StepInput)
deriving Repr, DecidableEq

/-- The field assignments of the update branch of
`upsertGeneratedRecipe`: `updatedAt` always; `sessionId` and
`isFavorite` only when present (`!== undefined`); `title` and every
other recipe field re-set unconditionally to the supplied value, even
when that value is absent. -/
def applyRecipeUpdate (input : UpsertRecipeInput) (now : Nat)
    (r : RecipeRow) : RecipeRow :=
  { r with
    updatedAt := now
    sessionId :=
      match input.sessionId with
      | some s => some s
      | none => r.sessionId
    title := input.title
    description := input.description
    cuisine := input.cuisine
    mealType := input.mealType
    tags := input.tags
    servings := input.servings
    prepTimeMinutes := input.prepTimeMinutes
    cookTimeMinutes := input.cookTimeMinutes
    notes := input.notes
    isFavorite :=
      match input.isFavorite with
      | some b => b
      | none => r.isFavorite }

/-- The row inserted by the create branch of `upsertGeneratedRecipe`:
`isFavorite` defaults to false, both timestamps are `now`. -/
def newRecipeRow (uid : String) (input : UpsertRecipeInput)
    (recipeId : String) (now : Nat) : RecipeRow :=
  { id := recipeId
    sessionId := input.sessionId
    userId := uid
    title := input.title
    description := input.description
    cuisine := input.cuisine
    mealType := input.mealType
    tags := input.tags
    servings := input.servings
    prepTimeMinutes := input.prepTimeMinutes
    cookTimeMinutes := input.cookTimeMinutes
    notes := input.notes
    isFavorite := input.isFavorite.getD false
    createdAt := now
    updatedAt := now }

/-- The ingredient rows inserted by `upsertGeneratedRecipe` for a
supplied ingredients array: each gets `ingredient.id ?? randomUUID()`,
the recipe id, and `createdAt := now`.  `base` indexes the UUID supply
site of the head element. -/
def buildIngredientRows (gen : Nat → String) (base : Nat)
    (recipeId : String) (now : Nat) :
    List IngredientInput → List IngredientRow
  | [] => []
  | ing :: rest =>
    { id := ing.id.getD (gen base)
      recipeId := recipeId
      orderIndex := ing.orderIndex
      name := ing.name
      quantity := ing.quantity
      notes := ing.notes
      createdAt := now } :: buildIngredientRows gen (base + 1) recipeId now rest

/-- The step rows inserted by `upsertGeneratedRecipe` for a supplied
steps array, analogous to `buildIngredientRows`. -/
def buildStepRows (gen : Nat → String) (base : Nat) (recipeId : String)
    (now : Nat) : List StepInput → List StepRow
  | [] => []
  | step :: rest =>
    { id := step.id.getD (gen base)
      recipeId := recipeId
      orderIndex := step.orderIndex
      instruction := step.instruction
      tip := step.tip
      createdAt := now } :: buildStepRows gen (base + 1) recipeId now rest

/-- Handler of `upsertGeneratedRecipe`, in source order:
1. require a user;
2. `if (input.sessionId)` (truthy: present and non-empty) check that a
   session with that id owned by the user exists, else NOT_FOUND;
3. `recipeId = input.id ?? randomUUID()`;
4. `if (input.id)` (truthy) check an owned recipe with that id exists
   (NOT_FOUND otherwise) and apply the update, else insert a new row;
5. `if (input.ingredients)` (present) delete all ingredient rows of
   `recipeId`, then insert the supplied ones if the array is non-empty;
6. same for `input.steps`;
7. return `recipeId`.
UUID supply sites: 0 for the recipe id, `1 + k` for ingredient `k`,
`1 + (number of supplied ingredients) + k` for step `k`. -/
def upsertGeneratedRecipe (user? : Option String)
    (input : UpsertRecipeInput) (now : Nat) (gen : Nat → String)
    (st : Store) : Except ActionErr String × Store :=
  match user? with
  | none => (Except.error ActionErr.unauthorized, st)
  | some uid =>
    if strTruthy input.sessionId &&
        ((st.recipeIdeaSessions.filter
            (fun s => s.id == input.sessionId.getD "" && s.userId == uid)).length
          == 0) then
      (Except.error ActionErr.notFound, st)
    else
      let recipeId := input.id.getD (gen 0)
      if strTruthy input.id &&
          ((st.generatedRecipes.filter
              (fun r => r.id == input.id.getD "" && r.userId == uid)).length
            == 0) then
        (Except.error ActionErr.notFound, st)
      else
        let recipes :=
          if strTruthy input.id then
            st.generatedRecipes.map
              (fun r =>
                if r.id == recipeId && r.userId == uid then
                  applyRecipeUpdate input now r
                else r)
          else
            st.generatedRecipes ++ [newRecipeRow uid input recipeId now]
        let ingredients :=
          match input.ingredients with
          | some ings =>
            let kept := st.generatedRecipeIngredients.filter
              (fun i => !(i.recipeId == recipeId))
            if ings.length > 0 then
              kept ++ buildIngredientRows gen 1 recipeId now ings
            else
              kept
          | none => st.generatedRecipeIngredients
        let steps :=
          match input.steps with
          | some stps =>
            let kept := st.generatedRecipeSteps.filter
              (fun s => !(s.recipeId == recipeId))
            let base := 1 + (input.ingredients.getD []).length
            if stps.length > 0 then
              kept ++ buildStepRows gen base recipeId now stps
            else
              kept
          | none => st.generatedRecipeSteps
        (Except.ok recipeId,
          { st with
            generatedRecipes := recipes
            generatedRecipeIngredients := ingredients
            generatedRecipeSteps := steps })

/-- Validated input of `listGeneratedRecipes`. -/
structure RecipeListInput where
  page : Nat
  pageSize : Nat
  sessionId : Option String
  favoritesOnly : Option Bool
deriving Repr, DecidableEq

/-- Output envelope of `listGeneratedRecipes`. -/
structure RecipeListOutput where
  items : List RecipeRow
  total : Nat
  page : Nat
  pageSize : Nat
deriving Repr, DecidableEq

/-- The row filter built by `listGeneratedRecipes`: owned by the user,
AND-ed with a `sessionId` equality when `input.sessionId` is truthy and
with `isFavorite = true` when `input.favoritesOnly` is truthy. -/
def recipeListFilter (uid : String) (input : RecipeListInput)
    (r : RecipeRow) : Bool :=
  (r.userId == uid) &&
    (if strTruthy input.sessionId then
        r.sessionId == some (input.sessionId.getD "")
      else true) &&
    (if input.favoritesOnly.getD false then r.isFavorite == true else true)

/-- Handler of `listGeneratedRecipes`: filtered rows ordered by
`createdAt` with limit/offset pagination; `total` is the length of the
returned page. -/
def listGeneratedRecipes (user? : Option String)
    (input : RecipeListInput) (st : Store) :
    Except ActionErr RecipeListOutput :=
  match user? with
  | none => Except.error ActionErr.unauthorized
  | some uid =>
    let offset := (input.page - 1) * input.pageSize
    let items :=
      ((orderByKey (fun r => r.createdAt)
          (st.generatedRecipes.filter (recipeListFilter uid input))).drop
        offset).take input.pageSize
    Except.ok
      { items := items
        total := items.length
        page := input.page
        pageSize := input.pageSize }

/-- Spec vocabulary: a session with identifier `sid` owned by user
`uid` exists in the store. -/
def ownedSession (st : Store) (uid sid : String) : Prop :=
  ∃ s ∈ st.recipeIdeaSessions, s.id = sid ∧ s.userId = uid

/-- Spec vocabulary: a recipe with identifier `rid` owned by user `uid`
exists in the store. -/
def ownedRecipe (st : Store) (uid rid : String) : Prop :=
  ∃ r ∈ st.generatedRecipes, r.id = rid ∧ r.userId = uid

instance (st : Store) (uid sid : String) : Decidable (ownedSession st uid sid) :=
  List.decidableBEx _ st.recipeIdeaSessions

instance (st : Store) (uid rid : String) : Decidable (ownedRecipe st uid rid) :=
  List.decidableBEx _ st.generatedRecipes

/-- Spec vocabulary: the session-reference check of
`upsertGeneratedRecipe` passes, i.e. whenever the handler checks the
supplied session reference (it is truthy), an owned session with that
id exists. -/
def sessionGateOk (st : Store) (uid : String) (input : UpsertRecipeInput) : Prop :=
  strTruthy input.sessionId = true → ownedSession st uid (input.sessionId.getD "")

instance (st : Store) (uid : String) (input : UpsertRecipeInput) :
    Decidable (sessionGateOk st uid input) :=
  if h : strTruthy input.sessionId = true then
    if h2 : ownedSession st uid (input.sessionId.getD "") then
      Decidable.isTrue (fun _ => h2)
    else Decidable.isFalse (fun f => h2 (f h))
  else Decidable.isTrue (fun ht => absurd ht h)

/-- A deterministic UUID supply for concrete test stores. -/
def genA : Nat → String := fun n => "g" ++ toString n

/-- The empty store. -/
def st0 : Store := ⟨[], [], [], []⟩

/-- An upsert input with the given title and every optional field
absent. -/
def baseUpsert (title : String) : UpsertRecipeInput :=
  ⟨none, none, title, none, none, none, none, none, none, none, none, none,
    none, none⟩

/-- A session "s" owned by user "u" with some prior field values. -/
def sesW : SessionRow :=
  ⟨"s", "u", some "t0", some "p0", none, some "d0", some 2, 0, 0⟩

/-- A store holding only `sesW`. -/
def stSes : Store := ⟨[sesW], [], [], []⟩

/-- A session "s" owned by another user "v". -/
def sesV : SessionRow := ⟨"s", "v", none, none, none, none, none, 0, 0⟩

/-- A store holding only `sesV`. -/
def stSesV : Store := ⟨[sesV], [], [], []⟩

/-- A recipe "r1" owned by user "u". -/
def recW : RecipeRow :=
  ⟨"r1", none, "u", "old", some "od", none, none, none, some 2, none, none,
    none, false, 1, 1⟩

/-- A store holding only `recW`. -/
def stRec : Store := ⟨[], [recW], [], []⟩

/-- An ingredient row of recipe "r1" (to be replaced). -/
def ingOld : IngredientRow := ⟨"i0", "r1", none, "old", none, none, 0⟩

/-- An ingredient row of another recipe "r2" (to be kept). -/
def ingOther : IngredientRow := ⟨"i1", "r2", none, "keep", none, none, 0⟩

/-- A step row of recipe "r1" (to be replaced). -/
def stpOld : StepRow := ⟨"p0", "r1", 1, "oldstep", none, 0⟩

/-- A store with recipe "r1", two ingredient rows and one step row. -/
def stRecIng : Store := ⟨[], [recW], [ingOld, ingOther], [stpOld]⟩

/-- C1 counterexample input: identifier supplied but empty. -/
def inC1x : UpsertRecipeInput := { baseUpsert "t" with id := some "" }

/-- C1 witness input: non-empty identifier "r1". -/
def inC1w : UpsertRecipeInput := { baseUpsert "t" with id := some "r1" }

/-- C2 counterexample input: session reference supplied but empty. -/
def inC2x : UpsertRecipeInput := { baseUpsert "t" with sessionId := some "" }

/-- C2 witness input: non-empty session reference "s". -/
def inC2w : UpsertRecipeInput := { baseUpsert "t" with sessionId := some "s" }

/-- C7 counterexample input: empty session reference plus an
ingredients array, to exhibit child writes as well. -/
def inC7x : UpsertRecipeInput :=
  { baseUpsert "t" with
    sessionId := some ""
    ingredients := some [⟨none, none, "x", none, none⟩] }

/-- C7 witness input: non-empty session reference "zz" that exists in
no store used with it. -/
def inC7w : UpsertRecipeInput := { baseUpsert "t" with sessionId := some "zz" }

/-- C3 witness input: update of session "s" supplying only a title. -/
def inC3w : SessionUpdateInput := ⟨"s", some "T", none, none, none, none⟩

/-- C6 witness input: update of session "s" (owned by "v", not the
caller "u"). -/
def inC6w : SessionUpdateInput := ⟨"s", some "T", none, none, none, some 4⟩

/-- C4 witness input: update of recipe "r1" with a new title, a
description, an explicit favorite flag, and other fields absent. -/
def inC4w : UpsertRecipeInput :=
  { baseUpsert "newT" with
    id := some "r1"
    description := some "d2"
    isFavorite := some true }

/-- C5 witness input: update of recipe "r1" replacing ingredients and
steps. -/
def inC5w : UpsertRecipeInput :=
  { baseUpsert "t" with
    id := some "r1"
    ingredients := some [⟨none, some 0, "x", none, none⟩]
    steps := some [⟨some "sid1", 1, "do", none⟩] }

/-- The store produced by the C5 witness call. -/
def stC5out : Store :=
  (upsertGeneratedRecipe (some "u") inC5w 3 genA stRecIng).2

/-- C9 counterexample row: a recipe of user "u" linked to session
"s". -/
def recC9 : RecipeRow := { recW with sessionId := some "s" }

/-- C9 counterexample store. -/
def stC9 : Store := ⟨[], [recC9], [], []⟩

/-- C9 counterexample list input: `sessionId` supplied as the empty
string. -/
def inC9x : RecipeListInput := ⟨1, 20, some "", none⟩

/-- A filtered list has length 0 (as the handlers test it with `== 0`)
exactly when no element satisfies the filter. -/
theorem filterLen_beq_zero_iff {α : Type} (p : α → Bool) (l : List α) :
    ((l.filter p).length == 0) = true ↔ ∀ x ∈ l, p x = false := by
  simp [List.length_eq_zero, List.filter_eq_nil_iff]

/-- The `== 0` length test fails when some element passes the filter. -/
theorem filterLen_beq_zero_eq_false {α : Type} (p : α → Bool) (l : List α)
    (x : α) (hx : x ∈ l) (hp : p x = true) :
    ((l.filter p).length == 0) = false := by
  rw [Bool.eq_false_iff]
  intro h
  have hfx := (filterLen_beq_zero_iff p l).mp h x hx
  rw [hp] at hfx
  simp at hfx

/-- When the session-reference check of `upsertGeneratedRecipe` is
satisfied, the handler's NOT_FOUND test on the session is false. -/
theorem sessionCheck_eq_false (st : Store) (uid : String)
    (input : UpsertRecipeInput) (h : sessionGateOk st uid input) :
    (strTruthy input.sessionId &&
      ((st.recipeIdeaSessions.filter
          (fun s => s.id == input.sessionId.getD "" && s.userId == uid)).length
        == 0)) = false := by
  cases htr : strTruthy input.sessionId with
  | false => simp
  | true =>
    obtain ⟨s, hmem, hid, huid⟩ := h htr
    rw [Bool.true_and]
    exact filterLen_beq_zero_eq_false _ _ s hmem (by simp [hid, huid])

/-- When a non-empty session reference is supplied and no owned session
matches it, the handler's NOT_FOUND test on the session is true. -/
theorem sessionCheck_eq_true (st : Store) (uid : String)
    (input : UpsertRecipeInput) (s : String) (hs : input.sessionId = some s)
    (hne : s ≠ "") (h : ¬ ownedSession st uid s) :
    (strTruthy input.sessionId &&
      ((st.recipeIdeaSessions.filter
          (fun t => t.id == input.sessionId.getD "" && t.userId == uid)).length
        == 0)) = true := by
  rw [hs]
  simp only [strTruthy, Option.getD_some]
  rw [show (s != "") = true from bne_iff_ne.mpr hne, Bool.true_and]
  rw [filterLen_beq_zero_iff]
  intro x hx
  rw [Bool.eq_false_iff]
  intro hcon
  rw [Bool.and_eq_true, beq_iff_eq, beq_iff_eq] at hcon
  exact h ⟨x, hx, hcon⟩

/-- When the supplied recipe identifier is non-empty and an owned
recipe matches it, the handler's NOT_FOUND test on the recipe is
false. -/
theorem recipeCheck_eq_false_of_owned (st : Store) (uid i : String)
    (input : UpsertRecipeInput) (hid : input.id = some i)
    (hex : ownedRecipe st uid i) :
    (strTruthy input.id &&
      ((st.generatedRecipes.filter
          (fun r => r.id == input.id.getD "" && r.userId == uid)).length
        == 0)) = false := by
  obtain ⟨r, hmem, hr, hu⟩ := hex
  rw [hid]
  cases htr : strTruthy (some i) with
  | false => simp
  | true =>
    rw [Bool.true_and]
    exact filterLen_beq_zero_eq_false _ _ r hmem (by simp [hr, hu])

/-- When the supplied recipe identifier is non-empty and no owned
recipe matches it, the handler's NOT_FOUND test on the recipe is
true. -/
theorem recipeCheck_eq_true_of_not (st : Store) (uid i : String)
    (input : UpsertRecipeInput) (hid : input.id = some i) (hne : i ≠ "")
    (h : ¬ ownedRecipe st uid i) :
    (strTruthy input.id &&
      ((st.generatedRecipes.filter
          (fun r => r.id == input.id.getD "" && r.userId == uid)).length
        == 0)) = true := by
  rw [hid]
  simp only [strTruthy, Option.getD_some]
  rw [show (i != "") = true from bne_iff_ne.mpr hne, Bool.true_and]
  rw [filterLen_beq_zero_iff]
  intro x hx
  rw [Bool.eq_false_iff]
  intro hcon
  rw [Bool.and_eq_true, beq_iff_eq, beq_iff_eq] at hcon
  exact h ⟨x, hx, hcon⟩

/-- With no recipe identifier supplied, the handler's NOT_FOUND test on
the recipe is false (the truthiness test already fails). -/
theorem recipeCheck_eq_false_of_none (st : Store) (uid : String)
    (input : UpsertRecipeInput) (hid : input.id = none) :
    (strTruthy input.id &&
      ((st.generatedRecipes.filter
          (fun r => r.id == input.id.getD "" && r.userId == uid)).length
        == 0)) = false := by
  rw [hid]
  simp [strTruthy]

/-- The session lookup of `updateRecipeIdeaSession` finds zero rows
when no owned session matches. -/
theorem sessLen_eq_true_of_not_owned (st : Store) (uid sid : String)
    (h : ¬ ownedSession st uid sid) :
    ((st.recipeIdeaSessions.filter
        (fun s => s.id == sid && s.userId == uid)).length == 0) = true := by
  rw [filterLen_beq_zero_iff]
  intro x hx
  rw [Bool.eq_false_iff]
  intro hcon
  rw [Bool.and_eq_true, beq_iff_eq, beq_iff_eq] at hcon
  exact h ⟨x, hx, hcon⟩

/-- The session lookup of `updateRecipeIdeaSession` finds a row when an
owned session matches. -/
theorem sessLen_eq_false_of_owned (st : Store) (uid sid : String)
    (h : ownedSession st uid sid) :
    ((st.recipeIdeaSessions.filter
        (fun s => s.id == sid && s.userId == uid)).length == 0) = false := by
  obtain ⟨s, hmem, h1, h2⟩ := h
  exact filterLen_beq_zero_eq_false _ _ s hmem (by simp [h1, h2])

/-- C6 (confirmed): when the session identifier of an
`updateRecipeIdeaSession` call does not belong to a session owned by
the caller (nonexistent id and foreign owner are merged in one lookup),
the handler fails with NOT_FOUND, never succeeds, and returns the store
unchanged. -/
theorem updateRecipeIdeaSession_notFound (uid : String)
    (input : SessionUpdateInput) (now : Nat) (st : Store)
    (h : ¬ ownedSession st uid input.id) :
    updateRecipeIdeaSession (some uid) input now st =
      (Except.error ActionErr.notFound, st) := by
  have hl := sessLen_eq_true_of_not_owned st uid input.id h
  simp [updateRecipeIdeaSession, hl]

/-- Witness for C6: user "u" updating session "s", which is owned by
user "v". -/
theorem updateRecipeIdeaSession_notFound_witness :
    ¬ ownedSession stSesV "u" inC6w.id ∧
      updateRecipeIdeaSession (some "u") inC6w 7 stSesV =
        (Except.error ActionErr.notFound, stSesV) :=
  ⟨by decide, updateRecipeIdeaSession_notFound "u" inC6w 7 stSesV (by decide)⟩

/-- C3 (confirmed): a successful `updateRecipeIdeaSession` call maps
exactly the rows matching (id AND owner) to a row that keeps its id,
owner and creation timestamp, keeps every field absent from the input,
replaces every field present in the input, and sets the update
timestamp to now; all other rows are untouched. -/
theorem updateRecipeIdeaSession_partialUpdate (uid : String)
    (input : SessionUpdateInput) (now : Nat) (st : Store)
    (h : ownedSession st uid input.id) :
    updateRecipeIdeaSession (some uid) input now st =
      (Except.ok input.id,
        { st with
          recipeIdeaSessions := st.recipeIdeaSessions.map (fun s =>
            if s.id = input.id ∧ s.userId = uid then
              { id := s.id
                userId := s.userId
                title := match input.title with
                  | some t => some t
                  | none => s.title
                prompt := match input.prompt with
                  | some p => some p
                  | none => s.prompt
                cuisinePreference := match input.cuisinePreference with
                  | some c => some c
                  | none => s.cuisinePreference
                dietaryPreference := match input.dietaryPreference with
                  | some d => some d
                  | none => s.dietaryPreference
                servingCount := match input.servingCount with
                  | some n => some n
                  | none => s.servingCount
                createdAt := s.createdAt
                updatedAt := now }
            else s) }) := by
  have hl := sessLen_eq_false_of_owned st uid input.id h
  have hfun : (fun s : SessionRow =>
      if s.id == input.id && s.userId == uid then
        applySessionUpdate input now s
      else s)
      = (fun s : SessionRow =>
        if s.id = input.id ∧ s.userId = uid then
          { id := s.id
            userId := s.userId
            title := match input.title with
              | some t => some t
              | none => s.title
            prompt := match input.prompt with
              | some p => some p
              | none => s.prompt
            cuisinePreference := match input.cuisinePreference with
              | some c => some c
              | none => s.cuisinePreference
            dietaryPreference := match input.dietaryPreference with
              | some d => some d
              | none => s.dietaryPreference
            servingCount := match input.servingCount with
              | some n => some n
              | none => s.servingCount
            createdAt := s.createdAt
            updatedAt := now }
        else s) := by
    funext s
    by_cases hc : s.id = input.id ∧ s.userId = uid
    · obtain ⟨h1, h2⟩ := hc
      simp [h1, h2, applySessionUpdate]
    · have hb : (s.id == input.id && s.userId == uid) = false := by
        rw [Bool.eq_false_iff]
        intro hcon
        rw [Bool.and_eq_true, beq_iff_eq, beq_iff_eq] at hcon
        exact hc hcon
      rw [hb, if_neg hc]
      simp
  simp only [updateRecipeIdeaSession, hl, hfun]
  simp

/-- Witness for C3: updating session "s" of user "u" with only a
title leaves prompt, preferences and serving count at their prior
values. -/
theorem updateRecipeIdeaSession_partialUpdate_witness :
    ownedSession stSes "u" inC3w.id ∧
      updateRecipeIdeaSession (some "u") inC3w 9 stSes =
        (Except.ok inC3w.id,
          { stSes with
            recipeIdeaSessions := stSes.recipeIdeaSessions.map (fun s =>
              if s.id = inC3w.id ∧ s.userId = "u" then
                { id := s.id
                  userId := s.userId
                  title := match inC3w.title with
                    | some t => some t
                    | none => s.title
                  prompt := match inC3w.prompt with
                    | some p => some p
                    | none => s.prompt
                  cuisinePreference := match inC3w.cuisinePreference with
                    | some c => some c
                    | none => s.cuisinePreference
                  dietaryPreference := match inC3w.dietaryPreference with
                    | some d => some d
                    | none => s.dietaryPreference
                  servingCount := match inC3w.servingCount with
                    | some n => some n
                    | none => s.servingCount
                  createdAt := s.createdAt
                  updatedAt := 9 }
              else s) }) :=
  ⟨by decide, updateRecipeIdeaSession_partialUpdate "u" inC3w 9 stSes (by decide)⟩

/-- C8 (confirmed): with a signed-in user, both list operations
succeed, echo `page` and `pageSize` back unchanged, and return a
`total` equal to the number of items on the returned page rather than a
true row count. -/
theorem list_total_echoes_page (uid : String) (sIn : SessionListInput)
    (rIn : RecipeListInput) (st : Store) :
    ∃ outS outR,
      listRecipeIdeaSessions (some uid) sIn st = Except.ok outS ∧
      outS.total = outS.items.length ∧
      outS.page = sIn.page ∧
      outS.pageSize = sIn.pageSize ∧
      listGeneratedRecipes (some uid) rIn st = Except.ok outR ∧
      outR.total = outR.items.length ∧
      outR.page = rIn.page ∧
      outR.pageSize = rIn.pageSize :=
  ⟨_, _, rfl, rfl, rfl, rfl, rfl, rfl, rfl, rfl⟩

/-- C10 (confirmed): `listGeneratedRecipes` with `sessionId` supplied
as the empty string behaves identically to the same call with
`sessionId` absent — the empty string is falsy, so no session filter is
applied. -/
theorem listGeneratedRecipes_emptySessionId (uid : String)
    (page pageSize : Nat) (fav : Option Bool) (st : Store) :
    listGeneratedRecipes (some uid) ⟨page, pageSize, some "", fav⟩ st =
      listGeneratedRecipes (some uid) ⟨page, pageSize, none, fav⟩ st := by
  have hfun : recipeListFilter uid ⟨page, pageSize, some "", fav⟩ =
      recipeListFilter uid ⟨page, pageSize, none, fav⟩ := by
    funext r
    simp [recipeListFilter, strTruthy]
  simp only [listGeneratedRecipes, hfun]

/-- C9 counterexample: with `sessionId` supplied as the empty string
the handler applies no session filter, so it returns a recipe whose
session reference is "s", not the claimed set of rows whose session
reference equals the supplied empty string. -/
theorem listGeneratedRecipes_filter_counterexample :
    inC9x.sessionId = some "" ∧
    recC9.sessionId = some "s" ∧
    listGeneratedRecipes (some "u") inC9x stC9 =
      Except.ok { items := [recC9], total := 1, page := 1, pageSize := 20 } :=
  ⟨rfl, rfl, rfl⟩

/-- C9 (corrected): both list operations return exactly the owned rows
satisfying the filters — where the `sessionId` equality filter of
`listGeneratedRecipes` applies only when `sessionId` is provided and
non-empty, and the favorite filter applies when `favoritesOnly` is
true — ordered by creation time ascending, skipping the first
(page − 1) × pageSize rows and returning at most pageSize rows. -/
theorem list_pagination_filters (uid : String) (sIn : SessionListInput)
    (rIn : RecipeListInput) (st : Store) :
    ∃ outS outR,
      listRecipeIdeaSessions (some uid) sIn st = Except.ok outS ∧
      outS.items =
        ((orderByKey (fun s => s.createdAt)
            (st.recipeIdeaSessions.filter (fun s => s.userId == uid))).drop
          ((sIn.page - 1) * sIn.pageSize)).take sIn.pageSize ∧
      listGeneratedRecipes (some uid) rIn st = Except.ok outR ∧
      outR.items =
        ((orderByKey (fun r => r.createdAt)
            (st.generatedRecipes.filter (fun r =>
              r.userId == uid &&
                (match rIn.sessionId with
                  | some s => if s = "" then true else r.sessionId == some s
                  | none => true) &&
                (match rIn.favoritesOnly with
                  | some true => r.isFavorite
                  | some false => true
                  | none => true)))).drop
          ((rIn.page - 1) * rIn.pageSize)).take rIn.pageSize := by
  refine ⟨_, _, rfl, rfl, rfl, ?_⟩
  have hfun : recipeListFilter uid rIn = (fun r : RecipeRow =>
      r.userId == uid &&
        (match rIn.sessionId with
          | some s => if s = "" then true else r.sessionId == some s
          | none => true) &&
        (match rIn.favoritesOnly with
          | some true => r.isFavorite
          | some false => true
          | none => true)) := by
    funext r
    unfold recipeListFilter
    congr 1
    · congr 1
      cases hsid : rIn.sessionId with
      | none => simp [strTruthy]
      | some s =>
        by_cases hs : s = ""
        · simp [strTruthy, hs]
        · simp [strTruthy, hs]
    · cases hfav : rIn.favoritesOnly with
      | none => simp
      | some b => cases b <;> simp
  simp only [listGeneratedRecipes, hfun]

/-- C7 counterexample: with `sessionId` supplied as the empty string
(which refers to no session at all in the empty store), the operation
does not raise NOT_FOUND: it succeeds and writes — the store changes
(a recipe row and an ingredient row are inserted). -/
theorem upsertGeneratedRecipe_emptySession_writes :
    inC7x.sessionId = some "" ∧
    ¬ ownedSession st0 "u" "" ∧
    (upsertGeneratedRecipe (some "u") inC7x 0 genA st0).1 = Except.ok "g0" ∧
    (upsertGeneratedRecipe (some "u") inC7x 0 genA st0).2 ≠ st0 :=
  ⟨rfl, by decide, rfl, by decide⟩

/-- C7 (corrected): when the supplied `sessionId` is non-empty and does
not refer to a session owned by the caller, `upsertGeneratedRecipe`
raises NOT_FOUND before performing any write: the store is returned
unchanged. -/
theorem upsertGeneratedRecipe_badSession_noWrite (uid s : String)
    (input : UpsertRecipeInput) (now : Nat) (gen : Nat → String) (st : Store)
    (hs : input.sessionId = some s) (hne : s ≠ "")
    (h : ¬ ownedSession st uid s) :
    upsertGeneratedRecipe (some uid) input now gen st =
      (Except.error ActionErr.notFound, st) := by
  have hc := sessionCheck_eq_true st uid input s hs hne h
  simp [upsertGeneratedRecipe, hc]

/-- Witness for C7: user "u" upserting with session reference "zz" in
the empty store. -/
theorem upsertGeneratedRecipe_badSession_noWrite_witness :
    inC7w.sessionId = some "zz" ∧ "zz" ≠ "" ∧ ¬ ownedSession st0 "u" "zz" ∧
      upsertGeneratedRecipe (some "u") inC7w 1 genA st0 =
        (Except.error ActionErr.notFound, st0) :=
  ⟨rfl, by decide, by decide,
    upsertGeneratedRecipe_badSession_noWrite "u" "zz" inC7w 1 genA st0 rfl
      (by decide) (by decide)⟩

/-- C2 counterexample: with `sessionId` supplied as the empty string,
no verification happens — the operation succeeds on the empty store and
writes a recipe row carrying the session reference "" that refers to no
existing session. -/
theorem upsertGeneratedRecipe_emptySession_unverified :
    inC2x.sessionId = some "" ∧
    ¬ ownedSession st0 "u" "" ∧
    (upsertGeneratedRecipe (some "u") inC2x 0 genA st0).1 = Except.ok "g0" ∧
    ((upsertGeneratedRecipe (some "u") inC2x 0 genA st0).2).generatedRecipes.map
        (fun r => r.sessionId) = [some ""] :=
  ⟨rfl, by decide, rfl, rfl⟩

/-- C2 (corrected): when a non-empty session reference is supplied,
the handler verifies that a session with that identifier owned by the
caller exists, failing NOT_FOUND otherwise; on success every recipe row
it writes (every row of the result store that is not in the input
store) carries exactly that verified session reference. -/
theorem upsertGeneratedRecipe_sessionRef (uid s : String)
    (input : UpsertRecipeInput) (now : Nat) (gen : Nat → String) (st : Store)
    (hs : input.sessionId = some s) (hne : s ≠ "") :
    (¬ ownedSession st uid s →
      upsertGeneratedRecipe (some uid) input now gen st =
        (Except.error ActionErr.notFound, st)) ∧
    (∀ rid st2,
      upsertGeneratedRecipe (some uid) input now gen st = (Except.ok rid, st2) →
      ownedSession st uid s ∧
        ∀ r ∈ st2.generatedRecipes, r ∉ st.generatedRecipes →
          r.sessionId = some s) := by
  constructor
  · intro h
    have hc := sessionCheck_eq_true st uid input s hs hne h
    simp [upsertGeneratedRecipe, hc]
  · intro rid st2 hok
    by_cases how : ownedSession st uid s
    · refine ⟨how, ?_⟩
      have hgate : sessionGateOk st uid input := by
        intro _
        rw [hs]
        simpa using how
      have hc := sessionCheck_eq_false st uid input hgate
      simp only [upsertGeneratedRecipe] at hok
      rw [hc] at hok
      simp only [Bool.false_eq_true, if_false] at hok
      cases hc2 : (strTruthy input.id &&
          ((st.generatedRecipes.filter
              (fun r => r.id == input.id.getD "" && r.userId == uid)).length
            == 0)) with
      | true =>
        rw [hc2] at hok
        simp at hok
      | false =>
        rw [hc2] at hok
        simp only [Bool.false_eq_true, if_false, Prod.mk.injEq] at hok
        obtain ⟨_, hst⟩ := hok
        subst hst
        intro r hr hnot
        cases hti : strTruthy input.id with
        | true =>
          rw [hti] at hr
          simp only [if_true] at hr
          obtain ⟨x, hx, hfx⟩ := List.mem_map.mp hr
          by_cases hcx : (x.id == input.id.getD (gen 0) && x.userId == uid) = true
          · rw [if_pos hcx] at hfx
            rw [← hfx]
            simp [applyRecipeUpdate, hs]
          · rw [if_neg hcx] at hfx
            rw [← hfx] at hnot
            exact absurd hx hnot
        | false =>
          rw [hti] at hr
          simp only [Bool.false_eq_true, if_false] at hr
          rcases List.mem_append.mp hr with hin | hnew
          · exact absurd hin hnot
          · rw [List.mem_singleton.mp hnew]
            simp [newRecipeRow, hs]
    · have hc := sessionCheck_eq_true st uid input s hs hne how
      rw [upsertGeneratedRecipe.eq_def] at hok
      simp only [hc] at hok
      simp at hok

/-- Witness for C2: user "u" upserting with the existing owned session
reference "s". -/
theorem upsertGeneratedRecipe_sessionRef_witness :
    inC2w.sessionId = some "s" ∧ "s" ≠ "" ∧
      ((¬ ownedSession stSes "u" "s" →
        upsertGeneratedRecipe (some "u") inC2w 4 genA stSes =
          (Except.error ActionErr.notFound, stSes)) ∧
      (∀ rid st2,
        upsertGeneratedRecipe (some "u") inC2w 4 genA stSes =
          (Except.ok rid, st2) →
        ownedSession stSes "u" "s" ∧
          ∀ r ∈ st2.generatedRecipes, r ∉ stSes.generatedRecipes →
            r.sessionId = some "s")) :=
  ⟨rfl, by decide,
    upsertGeneratedRecipe_sessionRef "u" "s" inC2w 4 genA stSes rfl (by decide)⟩

/-- C1 counterexample: the identifier field is supplied as the empty
string, no recipe with that identifier exists, and yet the operation
does not fail — it inserts a new recipe row (under the empty-string
identifier, not a fresh one). -/
theorem upsertGeneratedRecipe_emptyId_inserts :
    inC1x.id = some "" ∧
    ¬ ownedRecipe st0 "u" "" ∧
    (upsertGeneratedRecipe (some "u") inC1x 0 genA st0).1 = Except.ok "" ∧
    ((upsertGeneratedRecipe (some "u") inC1x 0 genA st0).2).generatedRecipes.length
      = 1 :=
  ⟨rfl, by decide, rfl, rfl⟩

/-- C1 (corrected): when the identifier field is supplied and
non-empty, the operation takes the update path — success with no row
inserted when an owned recipe with that identifier exists, NOT_FOUND
with the store unchanged otherwise — and when no identifier is
supplied it inserts one new row under the freshly generated
identifier. -/
theorem upsertGeneratedRecipe_idDispatch (uid : String)
    (input : UpsertRecipeInput) (now : Nat) (gen : Nat → String) (st : Store)
    (hgate : sessionGateOk st uid input) :
    (∀ i, input.id = some i → i ≠ "" →
      (ownedRecipe st uid i →
        (upsertGeneratedRecipe (some uid) input now gen st).1 = Except.ok i ∧
          ((upsertGeneratedRecipe (some uid) input now gen
              st).2).generatedRecipes.length = st.generatedRecipes.length) ∧
      (¬ ownedRecipe st uid i →
        upsertGeneratedRecipe (some uid) input now gen st =
          (Except.error ActionErr.notFound, st))) ∧
    (input.id = none →
      (upsertGeneratedRecipe (some uid) input now gen st).1 =
          Except.ok (gen 0) ∧
        ((upsertGeneratedRecipe (some uid) input now gen
            st).2).generatedRecipes =
          st.generatedRecipes ++ [newRecipeRow uid input (gen 0) now]) := by
  have h1 := sessionCheck_eq_false st uid input hgate
  refine ⟨?_, ?_⟩
  · intro i hid hne
    refine ⟨?_, ?_⟩
    · intro hex
      have h2 := recipeCheck_eq_false_of_owned st uid i input hid hex
      have hti : strTruthy (some i) = true := bne_iff_ne.mpr hne
      simp only [upsertGeneratedRecipe]
      rw [h1]
      simp only [Bool.false_eq_true, if_false]
      rw [h2]
      simp only [Bool.false_eq_true, if_false]
      simp [hid, hti]
    · intro hnex
      have h2 := recipeCheck_eq_true_of_not st uid i input hid hne hnex
      simp only [upsertGeneratedRecipe]
      rw [h1]
      simp only [Bool.false_eq_true, if_false]
      rw [h2]
      simp
  · intro hid
    have h2 := recipeCheck_eq_false_of_none st uid input hid
    simp only [upsertGeneratedRecipe]
    rw [h1]
    simp only [Bool.false_eq_true, if_false]
    rw [h2]
    simp only [Bool.false_eq_true, if_false]
    rw [hid]
    simp [strTruthy]

/-- Witness for C1: user "u", a store holding recipe "r1", and an input
supplying id "r1". -/
theorem upsertGeneratedRecipe_idDispatch_witness :
    sessionGateOk stRec "u" inC1w ∧
      ((∀ i, inC1w.id = some i → i ≠ "" →
        (ownedRecipe stRec "u" i →
          (upsertGeneratedRecipe (some "u") inC1w 2 genA stRec).1 =
              Except.ok i ∧
            ((upsertGeneratedRecipe (some "u") inC1w 2 genA
                stRec).2).generatedRecipes.length =
              stRec.generatedRecipes.length) ∧
        (¬ ownedRecipe stRec "u" i →
          upsertGeneratedRecipe (some "u") inC1w 2 genA stRec =
            (Except.error ActionErr.notFound, stRec))) ∧
      (inC1w.id = none →
        (upsertGeneratedRecipe (some "u") inC1w 2 genA stRec).1 =
            Except.ok (genA 0) ∧
          ((upsertGeneratedRecipe (some "u") inC1w 2 genA
              stRec).2).generatedRecipes =
            stRec.generatedRecipes ++ [newRecipeRow "u" inC1w (genA 0) 2])) :=
  ⟨by decide, upsertGeneratedRecipe_idDispatch "u" inC1w 2 genA stRec (by decide)⟩

/-- C4 (confirmed): on the update path (non-empty identifier supplied,
owned recipe found, session check passing), exactly the rows matching
(id AND owner) are rewritten: title and all other plain recipe fields
are re-set to the supplied values even when absent, sessionId and
isFavorite change only when explicitly provided, the update timestamp
becomes now, and id, owner and creation timestamp are unchanged. -/
theorem upsertGeneratedRecipe_updateFields (uid i : String)
    (input : UpsertRecipeInput) (now : Nat) (gen : Nat → String) (st : Store)
    (hgate : sessionGateOk st uid input) (hid : input.id = some i)
    (hne : i ≠ "") (hex : ownedRecipe st uid i) :
    (upsertGeneratedRecipe (some uid) input now gen st).1 = Except.ok i ∧
    ((upsertGeneratedRecipe (some uid) input now gen st).2).generatedRecipes =
      st.generatedRecipes.map (fun r =>
        if r.id = i ∧ r.userId = uid then
          { id := r.id
            sessionId := match input.sessionId with
              | some s => some s
              | none => r.sessionId
            userId := r.userId
            title := input.title
            description := input.description
            cuisine := input.cuisine
            mealType := input.mealType
            tags := input.tags
            servings := input.servings
            prepTimeMinutes := input.prepTimeMinutes
            cookTimeMinutes := input.cookTimeMinutes
            notes := input.notes
            isFavorite := match input.isFavorite with
              | some b => b
              | none => r.isFavorite
            createdAt := r.createdAt
            updatedAt := now }
        else r) := by
  have h1 := sessionCheck_eq_false st uid input hgate
  have h2 := recipeCheck_eq_false_of_owned st uid i input hid hex
  have hti : strTruthy (some i) = true := bne_iff_ne.mpr hne
  constructor
  · simp only [upsertGeneratedRecipe]
    rw [h1]
    simp only [Bool.false_eq_true, if_false]
    rw [h2]
    simp only [Bool.false_eq_true, if_false]
    simp [hid]
  · simp only [upsertGeneratedRecipe]
    rw [h1]
    simp only [Bool.false_eq_true, if_false]
    rw [h2]
    simp only [Bool.false_eq_true, if_false]
    rw [hid]
    simp only [Option.getD_some]
    rw [hti]
    simp
    intro r hr
    by_cases hc : r.id = i ∧ r.userId = uid
    · obtain ⟨ha, hb⟩ := hc
      simp [ha, hb, applyRecipeUpdate]
    · rw [if_neg hc, if_neg hc]

/-- Witness for C4: updating recipe "r1" of user "u" with a new title,
a description and an explicit favorite flag. -/
theorem upsertGeneratedRecipe_updateFields_witness :
    sessionGateOk stRec "u" inC4w ∧ inC4w.id = some "r1" ∧ "r1" ≠ "" ∧
      ownedRecipe stRec "u" "r1" ∧
      ((upsertGeneratedRecipe (some "u") inC4w 6 genA stRec).1 =
          Except.ok "r1" ∧
        ((upsertGeneratedRecipe (some "u") inC4w 6 genA
            stRec).2).generatedRecipes =
          stRec.generatedRecipes.map (fun r =>
            if r.id = "r1" ∧ r.userId = "u" then
              { id := r.id
                sessionId := match inC4w.sessionId with
                  | some s => some s
                  | none => r.sessionId
                userId := r.userId
                title := inC4w.title
                description := inC4w.description
                cuisine := inC4w.cuisine
                mealType := inC4w.mealType
                tags := inC4w.tags
                servings := inC4w.servings
                prepTimeMinutes := inC4w.prepTimeMinutes
                cookTimeMinutes := inC4w.cookTimeMinutes
                notes := inC4w.notes
                isFavorite := match inC4w.isFavorite with
                  | some b => b
                  | none => r.isFavorite
                createdAt := r.createdAt
                updatedAt := 6 }
            else r)) :=
  ⟨by decide, rfl, by decide, by decide,
    upsertGeneratedRecipe_updateFields "u" "r1" inC4w 6 genA stRec (by decide)
      rfl (by decide) (by decide)⟩

/-- Element k of the ingredient rows built for an upsert: the supplied
id when present, the UUID of supply site base + k otherwise, tagged
with the recipe id and the current timestamp. -/
theorem buildIngredientRows_getElem (gen : Nat → String) (rid : String)
    (now : Nat) (l : List IngredientInput) :
    ∀ (base k : Nat) (ing : IngredientInput), l[k]? = some ing →
      (buildIngredientRows gen base rid now l)[k]? =
        some ({ id := ing.id.getD (gen (base + k)), recipeId := rid
                orderIndex := ing.orderIndex, name := ing.name
                quantity := ing.quantity, notes := ing.notes
                createdAt := now } : IngredientRow) := by
  induction l with
  | nil =>
    intro base k ing h
    simp at h
  | cons x xs ih =>
    intro base k ing h
    cases k with
    | zero =>
      rw [List.getElem?_cons_zero] at h
      rw [Option.some.injEq] at h
      subst h
      simp [buildIngredientRows]
    | succ k =>
      rw [List.getElem?_cons_succ] at h
      have h2 := ih (base + 1) k ing h
      rw [show base + 1 + k = base + (k + 1) by omega] at h2
      simpa [buildIngredientRows] using h2

/-- Element k of the step rows built for an upsert, analogous to
`buildIngredientRows_getElem`. -/
theorem buildStepRows_getElem (gen : Nat → String) (rid : String)
    (now : Nat) (l : List StepInput) :
    ∀ (base k : Nat) (stp : StepInput), l[k]? = some stp →
      (buildStepRows gen base rid now l)[k]? =
        some ({ id := stp.id.getD (gen (base + k)), recipeId := rid
                orderIndex := stp.orderIndex, instruction := stp.instruction
                tip := stp.tip, createdAt := now } : StepRow) := by
  induction l with
  | nil =>
    intro base k stp h
    simp at h
  | cons x xs ih =>
    intro base k stp h
    cases k with
    | zero =>
      rw [List.getElem?_cons_zero] at h
      rw [Option.some.injEq] at h
      subst h
      simp [buildStepRows]
    | succ k =>
      rw [List.getElem?_cons_succ] at h
      have h2 := ih (base + 1) k stp h
      rw [show base + 1 + k = base + (k + 1) by omega] at h2
      simpa [buildStepRows] using h2

/-- C5 (confirmed): on every successful upsert, a supplied ingredients
array fully replaces the ingredient rows of the returned recipe id (all
prior rows of that recipe deleted, the supplied rows appended, each
with the supplied id or a fresh one, tagged with the recipe id and
current timestamp), an empty array leaves the recipe with zero
ingredient rows, an absent array leaves the table untouched; and the
same holds for the steps array over step rows. -/
theorem upsertGeneratedRecipe_childReplace (uid rid : String)
    (input : UpsertRecipeInput) (now : Nat) (gen : Nat → String)
    (st st2 : Store)
    (hok : upsertGeneratedRecipe (some uid) input now gen st =
      (Except.ok rid, st2)) :
    (∀ ings, input.ingredients = some ings →
      st2.generatedRecipeIngredients =
        st.generatedRecipeIngredients.filter (fun x => !(x.recipeId == rid)) ++
          buildIngredientRows gen 1 rid now ings) ∧
    (input.ingredients = none →
      st2.generatedRecipeIngredients = st.generatedRecipeIngredients) ∧
    (input.ingredients = some [] →
      ∀ x ∈ st2.generatedRecipeIngredients, ¬ x.recipeId = rid) ∧
    (∀ (ings : List IngredientInput) (k : Nat) (ing : IngredientInput),
      input.ingredients = some ings → ings[k]? = some ing →
      (buildIngredientRows gen 1 rid now ings)[k]? =
        some ({ id := ing.id.getD (gen (1 + k)), recipeId := rid
                orderIndex := ing.orderIndex, name := ing.name
                quantity := ing.quantity, notes := ing.notes
                createdAt := now } : IngredientRow)) ∧
    (∀ stps, input.steps = some stps →
      st2.generatedRecipeSteps =
        st.generatedRecipeSteps.filter (fun x => !(x.recipeId == rid)) ++
          buildStepRows gen (1 + (input.ingredients.getD []).length) rid now
            stps) ∧
    (input.steps = none →
      st2.generatedRecipeSteps = st.generatedRecipeSteps) ∧
    (input.steps = some [] →
      ∀ x ∈ st2.generatedRecipeSteps, ¬ x.recipeId = rid) ∧
    (∀ (stps : List StepInput) (k : Nat) (stp : StepInput),
      input.steps = some stps → stps[k]? = some stp →
      (buildStepRows gen (1 + (input.ingredients.getD []).length) rid now
          stps)[k]? =
        some ({ id := stp.id.getD
                  (gen (1 + (input.ingredients.getD []).length + k))
                recipeId := rid, orderIndex := stp.orderIndex
                instruction := stp.instruction, tip := stp.tip
                createdAt := now } : StepRow)) := by
  simp only [upsertGeneratedRecipe] at hok
  cases hc1 : (strTruthy input.sessionId &&
      ((st.recipeIdeaSessions.filter
          (fun s => s.id == input.sessionId.getD "" && s.userId == uid)).length
        == 0)) with
  | true =>
    rw [hc1] at hok
    simp at hok
  | false =>
    rw [hc1] at hok
    simp only [Bool.false_eq_true, if_false] at hok
    cases hc2 : (strTruthy input.id &&
        ((st.generatedRecipes.filter
            (fun r => r.id == input.id.getD "" && r.userId == uid)).length
          == 0)) with
    | true =>
      rw [hc2] at hok
      simp at hok
    | false =>
      rw [hc2] at hok
      simp only [Bool.false_eq_true, if_false, Prod.mk.injEq] at hok
      obtain ⟨hrid, hst⟩ := hok
      have hr : input.id.getD (gen 0) = rid := by simpa using hrid
      subst hr
      subst hst
      refine ⟨?_, ?_, ?_, ?_, ?_, ?_, ?_, ?_⟩
      · intro ings hi
        rw [hi]
        cases ings with
        | nil => simp [buildIngredientRows]
        | cons a as => simp
      · intro hi
        rw [hi]
      · intro hi
        rw [hi]
        intro x hx
        simp at hx
        exact hx.2
      · intro ings k ing hi hk
        exact buildIngredientRows_getElem gen (input.id.getD (gen 0)) now ings
          1 k ing hk
      · intro stps hstp
        rw [hstp]
        cases stps with
        | nil => simp [buildStepRows]
        | cons a as => simp
      · intro hstp
        rw [hstp]
      · intro hstp
        rw [hstp]
        intro x hx
        simp at hx
        exact hx.2
      · intro stps k stp hstp hk
        exact buildStepRows_getElem gen (input.id.getD (gen 0)) now stps
          (1 + (input.ingredients.getD []).length) k stp hk

/-- Witness for C5: updating recipe "r1" with one ingredient and one
step; the prior child rows of "r1" are replaced and the child rows of
recipe "r2" are kept. -/
theorem upsertGeneratedRecipe_childReplace_witness :
    (upsertGeneratedRecipe (some "u") inC5w 3 genA stRecIng =
      (Except.ok "r1", stC5out)) ∧
    ((∀ ings, inC5w.ingredients = some ings →
      stC5out.generatedRecipeIngredients =
        stRecIng.generatedRecipeIngredients.filter
            (fun x => !(x.recipeId == "r1")) ++
          buildIngredientRows genA 1 "r1" 3 ings) ∧
    (inC5w.ingredients = none →
      stC5out.generatedRecipeIngredients =
        stRecIng.generatedRecipeIngredients) ∧
    (inC5w.ingredients = some [] →
      ∀ x ∈ stC5out.generatedRecipeIngredients, ¬ x.recipeId = "r1") ∧
    (∀ (ings : List IngredientInput) (k : Nat) (ing : IngredientInput),
      inC5w.ingredients = some ings → ings[k]? = some ing →
      (buildIngredientRows genA 1 "r1" 3 ings)[k]? =
        some ({ id := ing.id.getD (genA (1 + k)), recipeId := "r1"
                orderIndex := ing.orderIndex, name := ing.name
                quantity := ing.quantity, notes := ing.notes
                createdAt := 3 } : IngredientRow)) ∧
    (∀ stps, inC5w.steps = some stps →
      stC5out.generatedRecipeSteps =
        stRecIng.generatedRecipeSteps.filter
            (fun x => !(x.recipeId == "r1")) ++
          buildStepRows genA (1 + (inC5w.ingredients.getD []).length) "r1" 3
            stps) ∧
    (inC5w.steps = none →
      stC5out.generatedRecipeSteps = stRecIng.generatedRecipeSteps) ∧
    (inC5w.steps = some [] →
      ∀ x ∈ stC5out.generatedRecipeSteps, ¬ x.recipeId = "r1") ∧
    (∀ (stps : List StepInput) (k : Nat) (stp : StepInput),
      inC5w.steps = some stps → stps[k]? = some stp →
      (buildStepRows genA (1 + (inC5w.ingredients.getD []).length) "r1" 3
          stps)[k]? =
        some ({ id := stp.id.getD
                  (genA (1 + (inC5w.ingredients.getD []).length + k))
                recipeId := "r1", orderIndex := stp.orderIndex
                instruction := stp.instruction, tip := stp.tip
                createdAt := 3 } : StepRow))) :=
  ⟨rfl, upsertGeneratedRecipe_childReplace "u" "r1" inC5w 3 genA stRecIng
    stC5out rfl⟩
